import Mathlib

/-!
Verification of the quantum-prompt-optimizer core (src/app.py): the entropy
fallback chain (`QuantumRandomService`) and the byte-driven variation
generator (`QuantumEnhancedOptimizer`), shallowly embedded in Lean.

Conventions of the embedding:
* Python byte values are `Nat` (providers deliver integers in [0,255]; bounds
  appear as hypotheses where a property needs them).
* Network effects are inputs: each HTTP call's outcome is a value of
  `HttpOutcome` (transport error, or a status code plus a parsed body);
  `datetime.now()` is a `String` input; `secrets.randbits(8)` is a stream
  `Nat → Nat` input.
* Python float arithmetic `byte / 255` is embedded as exact rational
  arithmetic; the comparisons against `0.3` and `0.7` agree with the float
  comparisons because `b/255` is never within `10^-3` of those breakpoints
  while double rounding error is below `10^-15`.
* Python list indexing `xs[i]` is `List.getD i default`; every generator
  theorem that depends on it carries the block-size hypothesis under which
  the source never indexes out of bounds.
* Raising an exception is an `Except.error`; a function that cannot raise
  returns its result type directly.
-/

/-- Result shape shared by the three entropy providers: the dict returned by
`_get_anu_quantum`, `_get_random_org` and `_get_secure_random`. -/
structure QuantumResult where
  random_bytes : List Nat
  source : String
  source_detail : String
  true_quantum : Bool
  timestamp : String
deriving DecidableEq

/-- Outcome of one HTTP request: `requests.get` either raises a transport
error or yields a response with a status code and a body of type `α`. -/
inductive HttpOutcome (α : Type) where
  | transportError
  | response (status : Nat) (body : α)
deriving DecidableEq

/-- Parsed JSON body of the ANU endpoint: the payload's own success flag
(`data.get("success", False)`; a missing key is `false`) and its data array. -/
structure AnuBody where
  success : Bool
  data : List Nat
deriving DecidableEq

/-- Embedding of `QuantumRandomService._get_anu_quantum`: raises on transport
error, on a non-success HTTP status (`raise_for_status`, status ≥ 400), and on
a payload whose success flag is false; otherwise returns the byte list tagged
`true_quantum := true`. -/
def get_anu_quantum (ts : String) : HttpOutcome AnuBody → Except String QuantumResult
  | .transportError => .error "request failed"
  | .response status body =>
    if 400 ≤ status then .error "HTTPError"
    else if body.success = false then .error "ANU API returned error"
    else .ok { random_bytes := body.data, source := "🔬 ANU Quantum Lab",
               source_detail := "Quantum vacuum fluctuations",
               true_quantum := true, timestamp := ts }

/-- Embedding of `QuantumRandomService._get_random_org`: the body is the
response text already split into lines; empty lines are dropped (`if x`) and
each remaining line is parsed with `int` (a parse failure raises, which the
caller absorbs).  Note the source tags this provider `true_quantum := False`. -/
def get_random_org (ts : String) : HttpOutcome (List String) → Except String QuantumResult
  | .transportError => .error "request failed"
  | .response status lines =>
    if 400 ≤ status then .error "HTTPError"
    else
      match (lines.filter (fun x => !x.isEmpty)).mapM String.toNat? with
      | none => .error "ValueError"
      | some numbers => .ok { random_bytes := numbers, source := "🌩️ Random.org",
                              source_detail := "Atmospheric noise",
                              true_quantum := false, timestamp := ts }

/-- Embedding of `QuantumRandomService._get_secure_random`: draws `num_bytes`
values from the local cryptographic generator (the stream `randbits`); it
cannot fail. -/
def get_secure_random (num_bytes : Nat) (ts : String) (randbits : Nat → Nat) : QuantumResult :=
  { random_bytes := (List.range num_bytes).map randbits, source := "🔒 Secure Random",
    source_detail := "Cryptographic pseudorandom (fallback)",
    true_quantum := false, timestamp := ts }

/-- Embedding of `QuantumRandomService.get_quantum_random`: tries ANU first,
absorbs any failure and tries Random.org, absorbs any failure and returns the
local secure fallback.  The return type is `QuantumResult` (not `Except`):
no exception propagates past this function. -/
def get_quantum_random (num_bytes : Nat) (ts : String) (anu : HttpOutcome AnuBody)
    (rng : HttpOutcome (List String)) (randbits : Nat → Nat) : QuantumResult :=
  match get_anu_quantum ts anu with
  | .ok r => r
  | .error _ =>
    match get_random_org ts rng with
    | .ok r => r
    | .error _ => get_secure_random num_bytes ts randbits

/-- `self.components["roles"]` (20 entries, declared order). -/
def roles : List String :=
  ["expert", "teacher", "researcher", "critic", "analyst",
   "philosopher", "scientist", "artist", "engineer", "storyteller",
   "detective", "journalist", "therapist", "coach", "strategist",
   "historian", "futurist", "designer", "mentor", "explorer"]

/-- `self.components["thinking_styles"]` (15 entries). -/
def thinking_styles : List String :=
  ["analytical", "creative", "systematic", "intuitive", "logical",
   "holistic", "critical", "lateral", "convergent", "divergent",
   "abstract", "concrete", "strategic", "tactical", "innovative"]

/-- `self.components["communication_tones"]` (15 entries). -/
def communication_tones : List String :=
  ["formal", "casual", "academic", "conversational", "professional",
   "friendly", "authoritative", "empathetic", "objective", "passionate",
   "humorous", "serious", "encouraging", "challenging", "collaborative"]

/-- `self.components["constraints"]` (12 template entries). -/
def constraints : List String :=
  ["using analogies from {domain}",
   "in the style of {author}",
   "as if explaining to {audience}",
   "with {emotion} undertone",
   "focusing on {aspect}",
   "avoiding {concept}",
   "emphasizing {priority}",
   "through the lens of {perspective}",
   "with examples from {field}",
   "using only {vocabulary_level} language",
   "as a {format} format",
   "within {constraint} constraint"]

/-- `self.components["domains"]` (21 entries, pairwise distinct). -/
def domains : List String :=
  ["cooking", "sports", "music", "nature", "technology", "art",
   "mathematics", "philosophy", "psychology", "physics", "biology",
   "economics", "history", "literature", "cinema", "architecture",
   "gaming", "fashion", "astronomy", "chemistry", "geography"]

/-- `self.components["aspects"]` (15 entries). -/
def aspects : List String :=
  ["practical applications", "theoretical foundations", "historical context",
   "future implications", "ethical considerations", "common misconceptions",
   "real-world examples", "underlying principles", "potential risks",
   "creative possibilities", "cultural impact", "scientific basis",
   "economic factors", "social dynamics", "technical details"]

/-- Local list `audiences` in `_quantum_creative_constraints`. -/
def audiences : List String :=
  ["a curious 5-year-old", "a skeptical teenager", "a busy executive",
   "an academic peer", "someone from the 1800s", "an alien visitor"]

/-- Local list `emotions` in `_quantum_creative_constraints`. -/
def emotions : List String :=
  ["curious", "playful", "serious", "inspiring", "mysterious", "urgent"]

/-- Local list `formats` in `_quantum_creative_constraints`. -/
def formats : List String :=
  ["dialogue", "story", "recipe", "scientific paper", "poem", "news article"]

/-- Local list `structures` in `_quantum_parameter_optimization` (6 entries). -/
def structures_po : List String :=
  ["linear progression", "compare and contrast", "problem-solution",
   "chronological", "cause and effect", "hierarchical"]

/-- Local list `approaches` in `_quantum_unexpected_connections` (renamed to
avoid clashing with the optimizer's approach table). -/
def fusion_approaches : List String :=
  ["analytical fusion", "creative synthesis", "systematic mapping",
   "intuitive bridging", "experimental combination"]

/-- Local list `structures` in `_quantum_dynamic_structure` (8 entries). -/
def structures_ds : List String :=
  ["Start with a paradox, resolve it through exploration",
   "Build from first principles to complex conclusions",
   "Use alternating zoom (big picture ↔ details)",
   "Create a narrative arc with tension and resolution",
   "Layer information like geological strata",
   "Spiral approach - revisit themes with deeper insight",
   "Dialectical - thesis, antithesis, synthesis",
   "Network structure - interconnected ideas"]

/-- Local list `rhythms` in `_quantum_dynamic_structure`. -/
def rhythms : List String :=
  ["short sentences build to long, complex ones",
   "alternating simple and complex paragraphs",
   "staccato facts punctuated by flowing explanations",
   "gradual acceleration of ideas",
   "wave pattern - intense/relaxed/intense"]

/-- Local list `architectures` in `_quantum_dynamic_structure`. -/
def architectures : List String :=
  ["front-load key insights",
   "build suspense before revelation",
   "distribute insights evenly",
   "cluster complexity in the middle",
   "end with surprising synthesis"]

/-- Local list `transitions` in `_quantum_dynamic_structure`. -/
def transitions_ds : List String :=
  ["smooth and connected", "sharp contrasts", "thematic bridges",
   "logical progression", "intuitive leaps"]

/-- Local list `connections` in `_quantum_unexpected_connections`: five
sentence templates built from the two chosen domains. -/
def connections_for (d1 d2 : String) : List String :=
  ["finding surprising parallels between " ++ d1 ++ " and " ++ d2,
   "using " ++ d1 ++ " principles to illuminate " ++ d2 ++ " concepts",
   "discovering how " ++ d1 ++ " masters would approach " ++ d2,
   "creating a synthesis of " ++ d1 ++ " and " ++ d2 ++ " thinking",
   "translating between " ++ d1 ++ " and " ++ d2 ++ " paradigms"]

/-- The float `quantum_bytes[k] / 255` of the source, as an exact rational. -/
def byte_level (b : Nat) : ℚ := (b : ℚ) / 255

/-- Models the Python formatting `f"{b/255:.1%}"`: the percentage with one
decimal digit, rounded to nearest (`b*1000/255` is never exactly half-way
between two tenths, so the tie-breaking rule is immaterial). -/
def format_pct (b : Nat) : String :=
  let t := (b * 2000 / 255 + 1) / 2
  toString (t / 10) ++ "." ++ toString (t % 10) ++ "%"

/-- Technical-level band of `_quantum_precision_mix` (source breakpoints
`> 0.7` and `> 0.3`). -/
def technical_band (x : ℚ) : String :=
  if x > 7/10 then "highly technical"
  else if x > 3/10 then "moderately technical" else "simplified"

/-- Creativity-level band of `_quantum_precision_mix`. -/
def creativity_band (x : ℚ) : String :=
  if x > 7/10 then "highly creative"
  else if x > 3/10 then "balanced approach" else "straightforward"

/-- Detail-level band of `_quantum_precision_mix`. -/
def detail_band (x : ℚ) : String :=
  if x > 7/10 then "comprehensive detail"
  else if x > 3/10 then "moderate detail" else "concise"

/-- Formality band of `_quantum_precision_mix`. -/
def formality_band (x : ℚ) : String :=
  if x > 7/10 then "very formal"
  else if x > 3/10 then "professional" else "casual"

/-- Abstraction band of `_quantum_parameter_optimization` (source phrases it
with `< 0.3` and `< 0.7`). -/
def abstraction_band (x : ℚ) : String :=
  if x < 3/10 then "highly concrete"
  else if x < 7/10 then "balanced" else "more abstract"

/-- Depth-variation band of `_quantum_parameter_optimization`. -/
def depth_band (x : ℚ) : String :=
  if x < 3/10 then "consistent depth"
  else if x < 7/10 then "varied depth" else "dramatic depth changes"

/-- Metaphor-density band of `_quantum_unexpected_connections`. -/
def metaphor_band (x : ℚ) : String :=
  if x > 7/10 then "heavy use of metaphors"
  else if x > 3/10 then "moderate metaphors" else "subtle connections"

/-- Energy-level band of `_quantum_dynamic_structure`. -/
def energy_band (x : ℚ) : String :=
  if x > 7/10 then "high energy throughout"
  else if x > 3/10 then "moderate pacing" else "calm and measured"

/-- Modelled from the spec: the qualitative-band rule as the spec words it —
the high label when the level exceeds 0.7, the moderate label when it exceeds
0.3 but not 0.7, and the low label otherwise.  Used only to compare the
source's band functions against the spec's breakpoints. -/
def band_by_breakpoints (low mid high : String) (x : ℚ) : String :=
  if x > 7/10 then high else if x > 3/10 then mid else low

/-- A value of a variation's parameter dict: a string, an integer, or a list
of strings. -/
inductive PValue where
  | str (s : String)
  | nat (n : Nat)
  | list (l : List String)
deriving DecidableEq

/-- The triple returned by each `_quantum_*` rendering routine: the rendered
prompt, the parameter dict (as an ordered association list) and the
description. -/
structure ApproachResult where
  prompt : String
  parameters : List (String × PValue)
  description : String
deriving DecidableEq

/-- Embedding of `QuantumEnhancedOptimizer._quantum_precision_mix`.  The
rendered prompt is the source's f-string; only the top-level grouping of the
concatenation (prefix `++` prompt `++` suffix) is chosen for convenience. -/
def quantum_precision_mix (prompt : String) (quantum_bytes : List Nat) : ApproachResult :=
  let b0 := quantum_bytes.getD 0 0
  let b1 := quantum_bytes.getD 1 0
  let b2 := quantum_bytes.getD 2 0
  let b3 := quantum_bytes.getD 3 0
  let technical_level := byte_level b0
  let creativity_level := byte_level b1
  let detail_level := byte_level b2
  let formality_level := byte_level b3
  let role := roles.getD (quantum_bytes.getD 4 0 % roles.length) ""
  let tone := communication_tones.getD (quantum_bytes.getD 5 0 % communication_tones.length) ""
  let style := thinking_styles.getD (quantum_bytes.getD 6 0 % thinking_styles.length) ""
  let optimized :=
    ("You are a " ++ role ++ " with " ++ style ++ " thinking style.\n\nCalibration Parameters:\n• Technical Level: " ++ format_pct b0 ++ " - " ++ technical_band technical_level ++ "\n• Creativity Level: " ++ format_pct b1 ++ " - " ++ creativity_band creativity_level ++ "\n• Detail Level: " ++ format_pct b2 ++ " - " ++ detail_band detail_level ++ "\n• Formality: " ++ format_pct b3 ++ " - " ++ formality_band formality_level ++ "\n\nCommunication tone: " ++ tone ++ "\n\nTask: ")
    ++ prompt
    ++ "\n\nYour response should precisely match these calibration parameters, creating a unique blend of technical accuracy, creative expression, and appropriate detail level."
  { prompt := optimized,
    parameters :=
      [("technical", .str (format_pct b0)), ("creativity", .str (format_pct b1)),
       ("detail", .str (format_pct b2)), ("formality", .str (format_pct b3)),
       ("role", .str role), ("tone", .str tone), ("style", .str style)],
    description := "Precision-calibrated " ++ role ++ " perspective with " ++ style ++ " thinking" }

/-- One constraint of `_quantum_creative_constraints`: the template chosen by
byte `1 + i*4`, with its placeholder filled from the bytes at offsets
`2 + i*4`, `3 + i*4`, `4 + i*4`.  The source guards each `replace` with an
`if placeholder in template` test; since `String.replace` is the identity when
the placeholder is absent and no vocabulary entry contains a brace, running
the replacements unconditionally yields the identical string. -/
def fill_template (template : String) (b2 b3 b4 : Nat) : String :=
  let t1 := template.replace "{domain}" (domains.getD (b2 % domains.length) "")
  let t2 := t1.replace "{audience}" (audiences.getD (b3 % audiences.length) "")
  let t3 := t2.replace "{emotion}" (emotions.getD (b4 % emotions.length) "")
  let t4 := t3.replace "{aspect}" (aspects.getD (b3 % aspects.length) "")
  t4.replace "{format}" (formats.getD (b3 % formats.length) "")

/-- Embedding of `QuantumEnhancedOptimizer._quantum_creative_constraints`. -/
def quantum_creative_constraints (prompt : String) (quantum_bytes : List Nat) : ApproachResult :=
  let num_constraints := quantum_bytes.getD 0 0 % 3 + 2
  let constraints_list := (List.range num_constraints).map (fun i =>
    fill_template (constraints.getD (quantum_bytes.getD (1 + i * 4) 0 % constraints.length) "")
      (quantum_bytes.getD (2 + i * 4) 0) (quantum_bytes.getD (3 + i * 4) 0)
      (quantum_bytes.getD (4 + i * 4) 0))
  let optimized :=
    prompt
    ++ ("\n\nCreative Constraints:\n"
        ++ String.intercalate "\n" (constraints_list.map (fun c => "• " ++ c))
        ++ "\n\nThese constraints should fundamentally shape your response, creating something unexpected yet coherent. The intersection of these constraints should produce insights that wouldn\x27t emerge from \nconventional approaches.")
  { prompt := optimized,
    parameters := [("constraints", .list constraints_list), ("constraint_count", .nat num_constraints)],
    description := toString num_constraints ++ " quantum-selected creative constraints" }

/-- Embedding of `QuantumEnhancedOptimizer._quantum_parameter_optimization`. -/
def quantum_parameter_optimization (prompt : String) (quantum_bytes : List Nat) : ApproachResult :=
  let word_count := 100 + quantum_bytes.getD 0 0 * 4
  let example_count := quantum_bytes.getD 1 0 % 4 + 1
  let perspective_count := quantum_bytes.getD 2 0 % 3 + 1
  let abstraction := byte_level (quantum_bytes.getD 3 0)
  let confidence := 60 + quantum_bytes.getD 4 0 % 36
  let depth_variation := byte_level (quantum_bytes.getD 5 0)
  let num_focus := quantum_bytes.getD 6 0 % 3 + 1
  let focus_areas := (List.range num_focus).map (fun i =>
    aspects.getD (quantum_bytes.getD (7 + i) 0 % aspects.length) "")
  let structure_choice := structures_po.getD (quantum_bytes.getD 10 0 % structures_po.length) ""
  let optimized :=
    prompt
    ++ ("\n\nOptimization Parameters:\n• Response length: " ++ toString word_count
        ++ " words (±10%)\n• Include exactly " ++ toString example_count ++ " concrete example"
        ++ (if example_count > 1 then "s" else "") ++ "\n• Present " ++ toString perspective_count
        ++ " distinct perspective" ++ (if perspective_count > 1 then "s" else "")
        ++ "\n• Abstraction level: " ++ format_pct (quantum_bytes.getD 3 0) ++ " ("
        ++ abstraction_band abstraction
        ++ ")\n• Confidence threshold: Only include points you\x27re >" ++ toString confidence
        ++ "% confident about\n• Depth variation: " ++ format_pct (quantum_bytes.getD 5 0)
        ++ " (" ++ depth_band depth_variation ++ ")\n• Structure: " ++ structure_choice
        ++ "\n\nPrimary focus areas: " ++ String.intercalate ", " focus_areas
        ++ "\n\nBalance these parameters to create an optimally informative response.")
  { prompt := optimized,
    parameters :=
      [("word_count", .nat word_count), ("examples", .nat example_count),
       ("perspectives", .nat perspective_count),
       ("abstraction", .str (format_pct (quantum_bytes.getD 3 0))),
       ("confidence", .str (toString confidence ++ "%")),
       ("depth_variation", .str (format_pct (quantum_bytes.getD 5 0))),
       ("structure", .str structure_choice), ("focus_areas", .list focus_areas)],
    description := "Multi-parameter optimization with " ++ structure_choice ++ " structure" }

/-- `domains[b % len(domains)]`, the modulo pick used for both domains of
`_quantum_unexpected_connections`. -/
def domain_pick (b : Nat) : String := domains.getD (b % domains.length) ""

/-- Fuel-indexed embedding of the source's `while domain2 == domain1` loop:
each iteration re-draws `domains[(quantum_bytes[1] + 1) % len(domains)]`.
`none` marks exhausting the fuel without the loop terminating. -/
def domain_while (d1 : String) (b1 : Nat) : Nat → String → Option String
  | 0, _ => none
  | fuel + 1, d2 =>
    if d2 = d1 then domain_while d1 b1 fuel (domains.getD ((b1 + 1) % domains.length) "")
    else some d2

/-- The value the source's while loop leaves in `domain2`: the initial modulo
pick, advanced by one position (wrapping) when it collides with `domain1`.
The loop body is idempotent, so it runs at most once; `dw_terminates` below
proves `domain_while` reaches exactly this value within any fuel ≥ 2. -/
def domain2_of (b0 b1 : Nat) : String :=
  if domain_pick b1 = domain_pick b0 then domains.getD ((b1 + 1) % domains.length) ""
  else domain_pick b1

/-- Embedding of `QuantumEnhancedOptimizer._quantum_unexpected_connections`. -/
def quantum_unexpected_connections (prompt : String) (quantum_bytes : List Nat) : ApproachResult :=
  let domain1 := domain_pick (quantum_bytes.getD 0 0)
  let domain2 := domain2_of (quantum_bytes.getD 0 0) (quantum_bytes.getD 1 0)
  let conns := connections_for domain1 domain2
  let connection := conns.getD (quantum_bytes.getD 2 0 % conns.length) ""
  let metaphor_density := byte_level (quantum_bytes.getD 3 0)
  let approach := fusion_approaches.getD (quantum_bytes.getD 4 0 % fusion_approaches.length) ""
  let optimized :=
    prompt
    ++ ("\n\nApproach this by " ++ connection ++ ".\n\nUse " ++ approach
        ++ " to create unexpected insights. Metaphor density: "
        ++ format_pct (quantum_bytes.getD 3 0) ++ " (" ++ metaphor_band metaphor_density
        ++ ").\n\nThe goal is to generate insights that would be impossible from within a single domain. Let the collision of "
        ++ domain1 ++ " and " ++ domain2 ++ " thinking create something genuinely new.")
  { prompt := optimized,
    parameters :=
      [("domain1", .str domain1), ("domain2", .str domain2),
       ("connection_type", .str connection), ("approach", .str approach),
       ("metaphor_density", .str (format_pct (quantum_bytes.getD 3 0)))],
    description := "Unexpected fusion of " ++ domain1 ++ " and " ++ domain2 }

/-- Embedding of `QuantumEnhancedOptimizer._quantum_dynamic_structure`. -/
def quantum_dynamic_structure (prompt : String) (quantum_bytes : List Nat) : ApproachResult :=
  let structure_choice := structures_ds.getD (quantum_bytes.getD 0 0 % structures_ds.length) ""
  let rhythm := rhythms.getD (quantum_bytes.getD 1 0 % rhythms.length) ""
  let architecture := architectures.getD (quantum_bytes.getD 2 0 % architectures.length) ""
  let transition := transitions_ds.getD (quantum_bytes.getD 3 0 % transitions_ds.length) ""
  let energy := byte_level (quantum_bytes.getD 4 0)
  let optimized :=
    prompt
    ++ ("\n\nStructural Blueprint:\n• Overall structure: " ++ structure_choice
        ++ "\n• Rhythm: " ++ rhythm ++ "\n• Information architecture: " ++ architecture
        ++ "\n• Transitions: " ++ transition ++ "\n• Energy level: "
        ++ format_pct (quantum_bytes.getD 4 0) ++ " (" ++ energy_band energy
        ++ ")\n\nThis structure should create a unique reading experience where form enhances meaning. The way you present the information should be as important as the information itself.")
  { prompt := optimized,
    parameters :=
      [("structure", .str structure_choice), ("rhythm", .str rhythm),
       ("architecture", .str architecture), ("transitions", .str transition),
       ("energy", .str (format_pct (quantum_bytes.getD 4 0)))],
    description := "Dynamic structure with " ++ (structure_choice.splitOn ",").getD 0 "" }

/-- `self.approaches`: the five approach keys and their display names, in
declared (dict insertion) order. -/
def approaches : List (String × String) :=
  [("precision_mix", "Quantum-Calibrated Parameters"),
   ("creative_constraints", "Quantum Creative Constraints"),
   ("parameter_optimization", "Quantum Parameter Optimization"),
   ("unexpected_connections", "Quantum Cross-Domain Fusion"),
   ("dynamic_structure", "Quantum Structure Generation")]

/-- `list(self.approaches.keys())`. -/
def approach_keys : List String := approaches.map Prod.fst

/-- The `available` list of `QuantumEnhancedOptimizer._select_approach`:
the keys not yet used, or the full key list when none remain. -/
def available_pool (used : List String) : List String :=
  if (approach_keys.filter (fun a => decide (a ∉ used))).isEmpty then approach_keys
  else approach_keys.filter (fun a => decide (a ∉ used))

/-- Embedding of `QuantumEnhancedOptimizer._select_approach`: index the
available pool by the quantum byte modulo its length. -/
def select_approach (quantum_byte : Nat) (used : List String) : String :=
  (available_pool used).getD (quantum_byte % (available_pool used).length) ""

/-- The dispatch on `approach` inside `generate_variations` (the final `else`
is `dynamic_structure`, as in the source). -/
def dispatch (approach : String) (base_prompt : String) (quantum_bytes : List Nat) : ApproachResult :=
  if approach = "precision_mix" then quantum_precision_mix base_prompt quantum_bytes
  else if approach = "creative_constraints" then quantum_creative_constraints base_prompt quantum_bytes
  else if approach = "parameter_optimization" then quantum_parameter_optimization base_prompt quantum_bytes
  else if approach = "unexpected_connections" then quantum_unexpected_connections base_prompt quantum_bytes
  else quantum_dynamic_structure base_prompt quantum_bytes

/-- One output record of `generate_variations`. -/
structure VariationRecord where
  id : Nat
  prompt : String
  approach : String
  approach_key : String
  parameters : List (String × PValue)
  quantum_source : String
  quantum_verified : Bool
  timestamp : String
  description : String
deriving DecidableEq

/-- The loop body of `generate_variations`, iterated over the remaining loop
indices.  `blocks i` is the `QuantumResult` the entropy service returned for
iteration `i` (the source requests 100 bytes per iteration); `used` is the
accumulating `used_approaches` list.  The second component counts the calls
made to `get_quantum_random` (one per iteration). -/
def generate_loop (base_prompt : String) (blocks : Nat → QuantumResult) :
    List Nat → List String → List VariationRecord × Nat
  | [], _ => ([], 0)
  | i :: rest, used =>
    let quantum_data := blocks i
    let quantum_bytes := quantum_data.random_bytes
    let key := select_approach (quantum_bytes.getD 0 0) used
    let result := dispatch key base_prompt (quantum_bytes.drop 1)
    let prev := generate_loop base_prompt blocks rest (used ++ [key])
    ({ id := i + 1, prompt := result.prompt,
       approach := ((approaches.lookup key).getD ""), approach_key := key,
       parameters := result.parameters, quantum_source := quantum_data.source,
       quantum_verified := quantum_data.true_quantum,
       timestamp := quantum_data.timestamp,
       description := result.description } :: prev.1,
     prev.2 + 1)

/-- Embedding of `QuantumEnhancedOptimizer.generate_variations` together with
its entropy consumption: the list of records and the number of
`get_quantum_random` calls made.  `num_variations` is a Python `int`;
`range(n)` is empty for `n ≤ 0`. -/
def generate_variations_run (base_prompt : String) (num_variations : Int)
    (blocks : Nat → QuantumResult) : List VariationRecord × Nat :=
  generate_loop base_prompt blocks (List.range num_variations.toNat) []

/-- The record list returned by `generate_variations`. -/
def generate_variations (base_prompt : String) (num_variations : Int)
    (blocks : Nat → QuantumResult) : List VariationRecord :=
  (generate_variations_run base_prompt num_variations blocks).1

/-- The sequence of approach keys chosen during one generation call. -/
def gen_keys (base_prompt : String) (num_variations : Int)
    (blocks : Nat → QuantumResult) : List String :=
  (generate_variations base_prompt num_variations blocks).map (fun r => r.approach_key)

/-- A fixed 100-byte entropy block used to instantiate theorems at concrete
inputs. -/
def demo_result : QuantumResult :=
  { random_bytes := List.range 100, source := "🔒 Secure Random",
    source_detail := "Cryptographic pseudorandom (fallback)",
    true_quantum := false, timestamp := "2026-01-01T00:00:00" }

/-- A constant entropy oracle producing `demo_result` on every call. -/
def demo_blocks : Nat → QuantumResult := fun _ => demo_result

/-- The approach key chosen at loop iteration `i`: the first byte of that
iteration's entropy block, fed to `select_approach` with the current
`used_approaches` list. -/
def next_key (blocks : Nat → QuantumResult) (i : Nat) (used : List String) : String :=
  select_approach (((blocks i).random_bytes).getD 0 0) used

/-- The sequence of approach keys produced by the `generate_variations` loop
over the iteration indices `l`, starting from the `used_approaches` list
`used` (a specification-level projection of `generate_loop`). -/
def key_seq (blocks : Nat → QuantumResult) : List Nat → List String → List String
  | [], _ => []
  | i :: rest, used => next_key blocks i used :: key_seq blocks rest (used ++ [next_key blocks i used])

/-! ### Helper lemmas -/

theorem prompt_mid_sub (pre post p : String) : p.data <:+: (pre ++ p ++ post).data :=
  ⟨pre.data, post.data, by simp⟩

theorem prompt_left_sub (post p : String) : p.data <:+: (p ++ post).data :=
  ⟨[], post.data, by simp⟩

theorem append_ne_empty_of_right (a post : String) (h : post ≠ "") : a ++ post ≠ "" := by
  intro he
  apply h
  have hd := congrArg String.data he
  rw [String.data_append] at hd
  exact String.ext ((List.append_eq_nil.mp hd).2)

theorem qpm_prompt_sub (p : String) (qb : List Nat) :
    p.data <:+: (quantum_precision_mix p qb).prompt.data :=
  prompt_mid_sub _ _ p

theorem qcc_prompt_sub (p : String) (qb : List Nat) :
    p.data <:+: (quantum_creative_constraints p qb).prompt.data :=
  prompt_left_sub _ p

theorem qpo_prompt_sub (p : String) (qb : List Nat) :
    p.data <:+: (quantum_parameter_optimization p qb).prompt.data :=
  prompt_left_sub _ p

theorem quc_prompt_sub (p : String) (qb : List Nat) :
    p.data <:+: (quantum_unexpected_connections p qb).prompt.data :=
  prompt_left_sub _ p

theorem qds_prompt_sub (p : String) (qb : List Nat) :
    p.data <:+: (quantum_dynamic_structure p qb).prompt.data :=
  prompt_left_sub _ p

theorem qpm_prompt_ne (p : String) (qb : List Nat) :
    (quantum_precision_mix p qb).prompt ≠ "" :=
  append_ne_empty_of_right _ _ (by decide)

theorem qcc_prompt_ne (p : String) (qb : List Nat) :
    (quantum_creative_constraints p qb).prompt ≠ "" :=
  append_ne_empty_of_right _ _ (append_ne_empty_of_right _ _ (by decide))

theorem qpo_prompt_ne (p : String) (qb : List Nat) :
    (quantum_parameter_optimization p qb).prompt ≠ "" :=
  append_ne_empty_of_right _ _ (append_ne_empty_of_right _ _ (by decide))

theorem quc_prompt_ne (p : String) (qb : List Nat) :
    (quantum_unexpected_connections p qb).prompt ≠ "" :=
  append_ne_empty_of_right _ _ (append_ne_empty_of_right _ _ (by decide))

theorem qds_prompt_ne (p : String) (qb : List Nat) :
    (quantum_dynamic_structure p qb).prompt ≠ "" :=
  append_ne_empty_of_right _ _ (append_ne_empty_of_right _ _ (by decide))

theorem dispatch_prompt_sub (key p : String) (qb : List Nat) :
    p.data <:+: (dispatch key p qb).prompt.data := by
  unfold dispatch
  split_ifs
  · exact qpm_prompt_sub p qb
  · exact qcc_prompt_sub p qb
  · exact qpo_prompt_sub p qb
  · exact quc_prompt_sub p qb
  · exact qds_prompt_sub p qb

theorem dispatch_prompt_ne (key p : String) (qb : List Nat) :
    (dispatch key p qb).prompt ≠ "" := by
  unfold dispatch
  split_ifs
  · exact qpm_prompt_ne p qb
  · exact qcc_prompt_ne p qb
  · exact qpo_prompt_ne p qb
  · exact quc_prompt_ne p qb
  · exact qds_prompt_ne p qb

theorem generate_loop_length (base : String) (blocks : Nat → QuantumResult) :
    ∀ (l : List Nat) (used : List String),
      ((generate_loop base blocks l used).1).length = l.length := by
  intro l
  induction l with
  | nil => intro used; rfl
  | cons i rest ih => intro used; simp [generate_loop, ih]

theorem generate_loop_calls (base : String) (blocks : Nat → QuantumResult) :
    ∀ (l : List Nat) (used : List String),
      (generate_loop base blocks l used).2 = l.length := by
  intro l
  induction l with
  | nil => intro used; rfl
  | cons i rest ih => intro used; simp [generate_loop, ih]

theorem generate_loop_prompt_facts (base : String) (blocks : Nat → QuantumResult) :
    ∀ (l : List Nat) (used : List String) (r : VariationRecord),
      r ∈ (generate_loop base blocks l used).1 →
      base.data <:+: r.prompt.data ∧ r.prompt ≠ "" := by
  intro l
  induction l with
  | nil => intro used r hr; simp [generate_loop] at hr
  | cons i rest ih =>
    intro used r hr
    simp only [generate_loop, List.mem_cons] at hr
    rcases hr with rfl | hr
    · exact ⟨dispatch_prompt_sub _ _ _, dispatch_prompt_ne _ _ _⟩
    · exact ih _ r hr

/-- C1: for every non-empty base prompt and every variation count ≥ 1,
`generate_variations` returns exactly `variation_count` records, and every
record's rendered prompt is a non-empty string containing the base prompt as
a substring (the block-size hypothesis reflects the 100 bytes requested per
iteration). -/
theorem generate_variations_count_and_substring (base : String) (n : Int)
    (blocks : Nat → QuantumResult) (hbase : base ≠ "") (hn : 1 ≤ n)
    (hblocks : ∀ i, ((blocks i).random_bytes).length = 100) :
    ((generate_variations base n blocks).length : Int) = n ∧
    ∀ r ∈ generate_variations base n blocks, r.prompt ≠ "" ∧ base.data <:+: r.prompt.data := by
  constructor
  · have h1 : (generate_variations base n blocks).length = n.toNat := by
      unfold generate_variations generate_variations_run
      rw [generate_loop_length]
      simp
    rw [h1]
    exact Int.toNat_of_nonneg (by omega)
  · intro r hr
    have h := generate_loop_prompt_facts base blocks (List.range n.toNat) [] r hr
    exact ⟨h.2, h.1⟩

/-- Witness for C1 at a concrete input. -/
theorem generate_variations_count_and_substring_witness :
    ((generate_variations "Explain quantum computing" 1 demo_blocks).length : Int) = 1 ∧
    ∀ r ∈ generate_variations "Explain quantum computing" 1 demo_blocks,
      r.prompt ≠ "" ∧ ("Explain quantum computing" : String).data <:+: r.prompt.data :=
  generate_variations_count_and_substring "Explain quantum computing" 1 demo_blocks
    (by decide) (by decide) (fun _ => rfl)

/-- C9: each of the five approach rendering routines is deterministic given
its inputs — two runs on the same base prompt and byte sequence yield
identical rendered text, parameter map and description.  In the embedding the
routines are pure functions of `(prompt, bytes)` (they read only the constant
vocabulary tables), so the two-run equality holds definitionally. -/
theorem approach_routines_deterministic (p : String) (qb : List Nat) :
    quantum_precision_mix p qb = quantum_precision_mix p qb ∧
    quantum_creative_constraints p qb = quantum_creative_constraints p qb ∧
    quantum_parameter_optimization p qb = quantum_parameter_optimization p qb ∧
    quantum_unexpected_connections p qb = quantum_unexpected_connections p qb ∧
    quantum_dynamic_structure p qb = quantum_dynamic_structure p qb :=
  ⟨rfl, rfl, rfl, rfl, rfl⟩

theorem generate_run_nonpos (base : String) (n : Int) (blocks : Nat → QuantumResult)
    (hn : n ≤ 0) : generate_variations_run base n blocks = ([], 0) := by
  unfold generate_variations_run
  rw [Int.toNat_of_nonpos hn]
  rfl

/-- C10: a non-positive variation count yields an empty record list, no error
and no entropy acquisition (`range(n)` is empty, so the loop body never
runs and `get_quantum_random` is never called). -/
theorem generate_variations_nonpos_empty (base : String) (n : Int)
    (blocks : Nat → QuantumResult) (hn : n ≤ 0) :
    generate_variations base n blocks = [] ∧ (generate_variations_run base n blocks).2 = 0 := by
  have h := generate_run_nonpos base n blocks hn
  exact ⟨by unfold generate_variations; rw [h], by rw [h]⟩

/-- Witness for C10 at a concrete input. -/
theorem generate_variations_nonpos_empty_witness :
    generate_variations "x" (-2) demo_blocks = [] ∧
    (generate_variations_run "x" (-2) demo_blocks).2 = 0 :=
  generate_variations_nonpos_empty "x" (-2) demo_blocks (by decide)

/-- C5 counterexample: with an empty base prompt and count 1 the generator
does not reject the request — it consumes one entropy block and returns one
record, contradicting the claim that invalid input is rejected before any
entropy is consumed. -/
theorem no_input_validation_counterexample :
    (generate_variations_run "" 1 demo_blocks).2 = 1 ∧
    (generate_variations "" 1 demo_blocks).length = 1 :=
  ⟨rfl, rfl⟩

/-- C5 as amended: `generate_variations` performs no input validation.  A
non-positive count returns an empty list with zero entropy acquisitions (but
no surfaced rejection), while an empty base prompt with count ≥ 1 is processed
normally: n records are produced and n entropy blocks are consumed. -/
theorem input_validation_amended (base : String) (n : Int) (blocks : Nat → QuantumResult) :
    (n ≤ 0 → generate_variations_run base n blocks = ([], 0)) ∧
    (1 ≤ n → ((generate_variations base n blocks).length : Int) = n ∧
      (((generate_variations_run base n blocks).2 : Int) = n)) := by
  constructor
  · exact generate_run_nonpos base n blocks
  · intro hn
    constructor
    · have h1 : (generate_variations base n blocks).length = n.toNat := by
        unfold generate_variations generate_variations_run
        rw [generate_loop_length]
        simp
      rw [h1]
      exact Int.toNat_of_nonneg (by omega)
    · have h2 : (generate_variations_run base n blocks).2 = n.toNat := by
        unfold generate_variations_run
        rw [generate_loop_calls]
        simp
      rw [h2]
      exact Int.toNat_of_nonneg (by omega)

/-- Witness for the amended C5 at concrete inputs. -/
theorem input_validation_amended_witness :
    generate_variations_run "" 0 demo_blocks = ([], 0) ∧
    ((generate_variations_run "" 3 demo_blocks).2 : Int) = 3 :=
  ⟨(input_validation_amended "" 0 demo_blocks).1 (by decide),
   ((input_validation_amended "" 3 demo_blocks).2 (by decide)).2⟩

/-- C2 counterexample: the secondary physical provider (Random.org,
atmospheric noise) tags its result `true_quantum = false`, so the
genuine-physical-process flag is not true for provider 2 as claimed. -/
theorem random_org_flag_counterexample :
    ∃ r, get_random_org "t" (.response 200 []) = .ok r ∧ r.true_quantum = false :=
  ⟨{ random_bytes := [], source := "🌩️ Random.org", source_detail := "Atmospheric noise",
     true_quantum := false, timestamp := "t" }, rfl, rfl⟩

/-- C2 as amended: the `true_quantum` flag is true exactly for provider 1
(ANU); both the secondary provider (Random.org) and the local fallback return
it as false. -/
theorem provider_flag_amended (num_bytes : Nat) (ts : String) (anu : HttpOutcome AnuBody)
    (rng : HttpOutcome (List String)) (randbits : Nat → Nat) :
    (∀ r, get_anu_quantum ts anu = .ok r → r.true_quantum = true) ∧
    (∀ r, get_random_org ts rng = .ok r → r.true_quantum = false) ∧
    (get_secure_random num_bytes ts randbits).true_quantum = false := by
  refine ⟨?_, ?_, rfl⟩
  · intro r h
    cases anu with
    | transportError => simp [get_anu_quantum] at h
    | response status body =>
      simp only [get_anu_quantum] at h
      split_ifs at h
      injection h with h2
      subst h2
      rfl
  · intro r h
    cases rng with
    | transportError => simp [get_random_org] at h
    | response status lines =>
      simp only [get_random_org] at h
      split_ifs at h
      cases hm : (lines.filter (fun x => !x.isEmpty)).mapM String.toNat? with
      | none => rw [hm] at h; simp at h
      | some nums =>
        rw [hm] at h
        injection h with h2
        subst h2
        rfl

/-- Witness for the amended C2 at a concrete input. -/
theorem provider_flag_amended_witness :
    ({ random_bytes := [], source := "🌩️ Random.org", source_detail := "Atmospheric noise",
       true_quantum := false, timestamp := "t" } : QuantumResult).true_quantum = false :=
  (provider_flag_amended 1 "t" .transportError (.response 200 []) (fun _ => 0)).2.1 _ rfl

/-- C3: the entropy chain absorbs every provider failure.  `get_quantum_random`
totally returns a `QuantumResult` (no exception escapes); a primary failure —
transport error, non-success HTTP status, or a payload success flag of false —
advances the chain to the secondary provider; a secondary failure advances to
the local fallback, which always returns a result with the requested number of
bytes. -/
theorem entropy_chain_absorbs_failures (num_bytes : Nat) (hn : 1 ≤ num_bytes) (ts : String)
    (anu : HttpOutcome AnuBody) (rng : HttpOutcome (List String)) (randbits : Nat → Nat) :
    (∀ e, get_anu_quantum ts anu = .error e →
      get_quantum_random num_bytes ts anu rng randbits =
        match get_random_org ts rng with
        | .ok r => r
        | .error _ => get_secure_random num_bytes ts randbits) ∧
    (∀ e f, get_anu_quantum ts anu = .error e → get_random_org ts rng = .error f →
      get_quantum_random num_bytes ts anu rng randbits = get_secure_random num_bytes ts randbits) ∧
    (anu = .transportError → ∃ e, get_anu_quantum ts anu = .error e) ∧
    (∀ status body, anu = .response status body → 400 ≤ status →
      ∃ e, get_anu_quantum ts anu = .error e) ∧
    (∀ status body, anu = .response status body → body.success = false →
      ∃ e, get_anu_quantum ts anu = .error e) ∧
    (get_secure_random num_bytes ts randbits).random_bytes.length = num_bytes := by
  refine ⟨?_, ?_, ?_, ?_, ?_, ?_⟩
  · intro e he
    unfold get_quantum_random
    rw [he]
  · intro e f he hf
    unfold get_quantum_random
    rw [he, hf]
  · intro h
    subst h
    exact ⟨"request failed", rfl⟩
  · intro status body h hs
    subst h
    exact ⟨"HTTPError", by simp [get_anu_quantum, hs]⟩
  · intro status body h hsucc
    subst h
    rcases Nat.lt_or_ge status 400 with hlt | hge
    · exact ⟨"ANU API returned error", by simp [get_anu_quantum, Nat.not_le.mpr hlt, hsucc]⟩
    · exact ⟨"HTTPError", by simp [get_anu_quantum, hge]⟩
  · simp [get_secure_random]

/-- Witness for C3 at a concrete input (both external providers down). -/
theorem entropy_chain_absorbs_failures_witness :
    get_quantum_random 5 "t" .transportError .transportError (fun _ => 0) =
      get_secure_random 5 "t" (fun _ => 0) ∧
    (get_secure_random 5 "t" (fun _ => 0)).random_bytes.length = 5 :=
  ⟨(entropy_chain_absorbs_failures 5 (by decide) "t" .transportError .transportError
      (fun _ => 0)).2.1 "request failed" "request failed" rfl rfl,
   (entropy_chain_absorbs_failures 5 (by decide) "t" .transportError .transportError
      (fun _ => 0)).2.2.2.2.2⟩

theorem byte_level_ne_three_tenths (b : Nat) : byte_level b ≠ 3/10 := by
  unfold byte_level
  intro h
  rw [div_eq_iff (by norm_num : (255:ℚ) ≠ 0)] at h
  have h2 : (b : ℚ) * 10 = 765 := by rw [h]; norm_num
  have h3 : (b * 10 : ℕ) = 765 := by exact_mod_cast h2
  omega

theorem byte_level_ne_seven_tenths (b : Nat) : byte_level b ≠ 7/10 := by
  unfold byte_level
  intro h
  rw [div_eq_iff (by norm_num : (255:ℚ) ≠ 0)] at h
  have h2 : (b : ℚ) * 10 = 1785 := by rw [h]; norm_num
  have h3 : (b * 10 : ℕ) = 1785 := by exact_mod_cast h2
  omega

theorem byte_level_nonneg (b : Nat) : 0 ≤ byte_level b := by
  unfold byte_level
  positivity

theorem byte_level_le_one (b : Nat) (hb : b ≤ 255) : byte_level b ≤ 1 := by
  unfold byte_level
  rw [div_le_one (by norm_num : (0:ℚ) < 255)]
  exact_mod_cast hb

theorem band_lt_eq (low mid high : String) (b : Nat) :
    (if byte_level b < 3/10 then low else if byte_level b < 7/10 then mid else high)
      = band_by_breakpoints low mid high (byte_level b) := by
  have h3 := byte_level_ne_three_tenths b
  have h7 := byte_level_ne_seven_tenths b
  unfold band_by_breakpoints
  rcases lt_trichotomy (byte_level b) (3/10 : ℚ) with hlt | heq | hgt
  · have hn7 : ¬ byte_level b > 7/10 := not_lt.mpr (le_of_lt (hlt.trans (by norm_num)))
    have hn3 : ¬ byte_level b > 3/10 := not_lt.mpr hlt.le
    rw [if_pos hlt, if_neg hn7, if_neg hn3]
  · exact absurd heq h3
  · have hn3lt : ¬ byte_level b < 3/10 := not_lt.mpr hgt.le
    by_cases h7lt : byte_level b < 7/10
    · have hn7gt : ¬ byte_level b > 7/10 := not_lt.mpr h7lt.le
      rw [if_neg hn3lt, if_pos h7lt, if_neg hn7gt, if_pos hgt]
    · have h7le : (7/10 : ℚ) ≤ byte_level b := not_lt.mp h7lt
      have h7gt : byte_level b > 7/10 := lt_of_le_of_ne h7le (fun he => h7 he.symm)
      rw [if_neg hn3lt, if_neg h7lt, if_pos h7gt]

/-- C6: for every byte value the normalized level `b/255` lies in `[0, 1]`,
and every band label in every approach is the one the spec's 0.3/0.7
breakpoint rule determines — including the two bands the source phrases with
`<` instead of `>`, which agree because `b/255` never equals a breakpoint. -/
theorem bands_consistent (b : Nat) (hb : b ≤ 255) :
    0 ≤ byte_level b ∧ byte_level b ≤ 1 ∧
    technical_band (byte_level b)
      = band_by_breakpoints "simplified" "moderately technical" "highly technical" (byte_level b) ∧
    creativity_band (byte_level b)
      = band_by_breakpoints "straightforward" "balanced approach" "highly creative" (byte_level b) ∧
    detail_band (byte_level b)
      = band_by_breakpoints "concise" "moderate detail" "comprehensive detail" (byte_level b) ∧
    formality_band (byte_level b)
      = band_by_breakpoints "casual" "professional" "very formal" (byte_level b) ∧
    metaphor_band (byte_level b)
      = band_by_breakpoints "subtle connections" "moderate metaphors" "heavy use of metaphors" (byte_level b) ∧
    energy_band (byte_level b)
      = band_by_breakpoints "calm and measured" "moderate pacing" "high energy throughout" (byte_level b) ∧
    abstraction_band (byte_level b)
      = band_by_breakpoints "highly concrete" "balanced" "more abstract" (byte_level b) ∧
    depth_band (byte_level b)
      = band_by_breakpoints "consistent depth" "varied depth" "dramatic depth changes" (byte_level b) :=
  ⟨byte_level_nonneg b, byte_level_le_one b hb, rfl, rfl, rfl, rfl, rfl, rfl,
   band_lt_eq _ _ _ b, band_lt_eq _ _ _ b⟩

/-- Witness for C6 at byte 200. -/
theorem bands_consistent_witness : byte_level 200 ≤ 1 :=
  (bands_consistent 200 (by decide)).2.1

theorem getD_le_255 (qb : List Nat) (h : ∀ x ∈ qb, x ≤ 255) (k : Nat) : qb.getD k 0 ≤ 255 := by
  rcases Nat.lt_or_ge k qb.length with hk | hk
  · rw [List.getD_eq_getElem qb 0 hk]
    exact h _ (List.getElem_mem hk)
  · rw [List.getD_eq_default qb 0 hk]
    omega

/-- C7: the byte-to-value conversions of the source — word count
`100 + b*4 ∈ [100, 1120]`, confidence `60 + (b mod 36) ∈ [60, 95]`,
categorical picks by `b mod L` into the declared lists, and numeric levels
`b/255` — as they appear in the parameter maps of
`_quantum_parameter_optimization` and `_quantum_precision_mix`. -/
theorem parameter_conversions (p : String) (qb : List Nat) (h : ∀ x ∈ qb, x ≤ 255) :
    ((quantum_parameter_optimization p qb).parameters.lookup "word_count"
        = some (.nat (100 + qb.getD 0 0 * 4)) ∧
      100 ≤ 100 + qb.getD 0 0 * 4 ∧ 100 + qb.getD 0 0 * 4 ≤ 1120) ∧
    ((quantum_parameter_optimization p qb).parameters.lookup "confidence"
        = some (.str (toString (60 + qb.getD 4 0 % 36) ++ "%")) ∧
      60 ≤ 60 + qb.getD 4 0 % 36 ∧ 60 + qb.getD 4 0 % 36 ≤ 95) ∧
    (quantum_parameter_optimization p qb).parameters.lookup "structure"
        = some (.str (structures_po.getD (qb.getD 10 0 % structures_po.length) "")) ∧
    byte_level (qb.getD 3 0) = (qb.getD 3 0 : ℚ) / 255 ∧
    (quantum_precision_mix p qb).parameters.lookup "role"
        = some (.str (roles.getD (qb.getD 4 0 % roles.length) "")) ∧
    (quantum_precision_mix p qb).parameters.lookup "tone"
        = some (.str (communication_tones.getD (qb.getD 5 0 % communication_tones.length) "")) ∧
    (quantum_precision_mix p qb).parameters.lookup "style"
        = some (.str (thinking_styles.getD (qb.getD 6 0 % thinking_styles.length) "")) := by
  have hb0 := getD_le_255 qb h 0
  refine ⟨⟨rfl, by omega, by omega⟩, ⟨rfl, by omega, by omega⟩, rfl, rfl, rfl, rfl, rfl⟩

/-- Witness for C7 at a concrete input. -/
theorem parameter_conversions_witness : 100 + ([] : List Nat).getD 0 0 * 4 ≤ 1120 :=
  (parameter_conversions "x" [] (by simp)).1.2.2

theorem domains_getD_ne :
    ∀ i, i < 21 → ∀ j, j < 21 → i ≠ j → domains.getD i "" ≠ domains.getD j "" := by
  decide

theorem domain2_of_ne (b0 b1 : Nat) : domain2_of b0 b1 ≠ domain_pick b0 := by
  unfold domain2_of
  split_ifs with h
  · rw [← h]
    show domains.getD ((b1 + 1) % 21) "" ≠ domains.getD (b1 % 21) ""
    exact domains_getD_ne _ (Nat.mod_lt _ (by omega)) _ (Nat.mod_lt _ (by omega)) (by omega)
  · exact h

theorem domain_while_terminates (b0 b1 : Nat) (fuel : Nat) (hf : 2 ≤ fuel) :
    domain_while (domain_pick b0) b1 fuel (domain_pick b1) = some (domain2_of b0 b1) := by
  obtain ⟨k, rfl⟩ : ∃ k, fuel = k + 2 := ⟨fuel - 2, by omega⟩
  by_cases h : domain_pick b1 = domain_pick b0
  · have hne : domains.getD ((b1 + 1) % domains.length) "" ≠ domain_pick b0 := by
      have h2 := domain2_of_ne b0 b1
      rw [domain2_of, if_pos h] at h2
      exact h2
    simp only [domain_while, if_pos h, if_neg hne]
    rw [domain2_of, if_pos h]
  · simp only [domain_while, if_neg h]
    rw [domain2_of, if_neg h]

/-- C8: the cross-domain-fusion approach always resolves two distinct
domains: the second index is picked by the same modulo rule as the first and
on collision is advanced one position with wraparound; the source's `while`
loop terminates (within any fuel ≥ 2) at exactly that value, which is the one
recorded in the parameter map. -/
theorem cross_domain_distinct (p : String) (qb : List Nat) (fuel : Nat) (hf : 2 ≤ fuel) :
    domain_while (domain_pick (qb.getD 0 0)) (qb.getD 1 0) fuel (domain_pick (qb.getD 1 0))
      = some (domain2_of (qb.getD 0 0) (qb.getD 1 0)) ∧
    domain2_of (qb.getD 0 0) (qb.getD 1 0) ≠ domain_pick (qb.getD 0 0) ∧
    (quantum_unexpected_connections p qb).parameters.lookup "domain1"
      = some (.str (domain_pick (qb.getD 0 0))) ∧
    (quantum_unexpected_connections p qb).parameters.lookup "domain2"
      = some (.str (domain2_of (qb.getD 0 0) (qb.getD 1 0))) :=
  ⟨domain_while_terminates _ _ _ hf, domain2_of_ne _ _, rfl, rfl⟩

/-- Witness for C8 at a concrete input. -/
theorem cross_domain_distinct_witness : domain2_of 0 1 ≠ domain_pick 0 :=
  (cross_domain_distinct "x" [0, 1] 2 (by decide)).2.1

theorem available_pool_ne_nil (used : List String) : available_pool used ≠ [] := by
  unfold available_pool
  split
  · decide
  · next hne =>
    intro hnil
    rw [hnil] at hne
    simp at hne

theorem mem_available_pool (used : List String) :
    ∀ x ∈ available_pool used, x ∈ approach_keys := by
  unfold available_pool
  split
  · exact fun x hx => hx
  · exact fun x hx => List.filter_subset' _ hx

theorem select_approach_mem (b : Nat) (used : List String) :
    select_approach b used ∈ approach_keys := by
  have hlen : 0 < (available_pool used).length :=
    List.length_pos.mpr (available_pool_ne_nil used)
  have hidx : b % (available_pool used).length < (available_pool used).length :=
    Nat.mod_lt _ hlen
  unfold select_approach
  rw [List.getD_eq_getElem _ _ hidx]
  exact mem_available_pool used _ (List.getElem_mem hidx)

theorem select_approach_not_mem (b : Nat) (used : List String)
    (h : ∃ a ∈ approach_keys, a ∉ used) : select_approach b used ∉ used := by
  obtain ⟨a, ha, hna⟩ := h
  have hmem : a ∈ approach_keys.filter (fun a => decide (a ∉ used)) := by
    rw [List.mem_filter]
    exact ⟨ha, by simpa using hna⟩
  have hpool : available_pool used = approach_keys.filter (fun a => decide (a ∉ used)) := by
    unfold available_pool
    rw [if_neg]
    intro hemp
    rw [List.isEmpty_iff.mp hemp] at hmem
    simp at hmem
  unfold select_approach
  rw [hpool]
  have hlen : 0 < (approach_keys.filter (fun a => decide (a ∉ used))).length := by
    apply List.length_pos.mpr
    intro hnil
    rw [hnil] at hmem
    simp at hmem
  have hidx : b % (approach_keys.filter (fun a => decide (a ∉ used))).length
      < (approach_keys.filter (fun a => decide (a ∉ used))).length := Nat.mod_lt _ hlen
  rw [List.getD_eq_getElem _ _ hidx]
  intro hcon
  have hin := List.getElem_mem hidx
  rw [List.mem_filter] at hin
  exact (of_decide_eq_true hin.2) hcon

theorem exists_unused (used : List String) (hlen : used.length < 5) :
    ∃ a ∈ approach_keys, a ∉ used := by
  by_contra hc
  push_neg at hc
  have h1 : approach_keys.toFinset ⊆ used.toFinset := by
    intro a ha
    rw [List.mem_toFinset] at *
    exact hc a (by simpa using ha)
  have h2 : approach_keys.toFinset.card = 5 := by decide
  have h3 : used.toFinset.card ≤ used.length := List.toFinset_card_le used
  have h4 := Finset.card_le_card h1
  omega

theorem key_seq_cons (blocks : Nat → QuantumResult) (i : Nat) (rest : List Nat)
    (used : List String) :
    key_seq blocks (i :: rest) used
      = next_key blocks i used :: key_seq blocks rest (used ++ [next_key blocks i used]) := rfl

theorem key_seq_length (blocks : Nat → QuantumResult) :
    ∀ (l : List Nat) (used : List String), (key_seq blocks l used).length = l.length := by
  intro l
  induction l with
  | nil => intro used; rfl
  | cons i rest ih => intro used; simp [key_seq_cons, ih]

theorem key_seq_mem (blocks : Nat → QuantumResult) :
    ∀ (l : List Nat) (used : List String) (a : String),
      a ∈ key_seq blocks l used → a ∈ approach_keys := by
  intro l
  induction l with
  | nil => intro used a ha; simp [key_seq] at ha
  | cons i rest ih =>
    intro used a ha
    rw [key_seq_cons, List.mem_cons] at ha
    rcases ha with rfl | ha
    · exact select_approach_mem _ _
    · exact ih _ a ha

theorem key_seq_nodup (blocks : Nat → QuantumResult) :
    ∀ (l : List Nat) (used : List String), used.Nodup → (∀ x ∈ used, x ∈ approach_keys) →
      used.length + l.length ≤ 5 → (used ++ key_seq blocks l used).Nodup := by
  intro l
  induction l with
  | nil => intro used h1 h2 h3; simpa [key_seq] using h1
  | cons i rest ih =>
    intro used h1 h2 h3
    have hlt : used.length < 5 := by
      simp only [List.length_cons] at h3
      omega
    have hex := exists_unused used hlt
    have hkmem : next_key blocks i used ∈ approach_keys := select_approach_mem _ _
    have hknot : next_key blocks i used ∉ used := select_approach_not_mem _ _ hex
    have h1' : (used ++ [next_key blocks i used]).Nodup := by
      rw [List.nodup_append]
      refine ⟨h1, List.nodup_singleton _, ?_⟩
      intro x hx hx'
      simp only [List.mem_singleton] at hx'
      subst hx'
      exact hknot hx
    have h2' : ∀ x ∈ used ++ [next_key blocks i used], x ∈ approach_keys := by
      intro x hx
      rcases List.mem_append.mp hx with hx | hx
      · exact h2 x hx
      · simp only [List.mem_singleton] at hx
        subst hx
        exact hkmem
    have h3' : (used ++ [next_key blocks i used]).length + rest.length ≤ 5 := by
      simp only [List.length_append, List.length_cons, List.length_nil] at h3 ⊢
      omega
    have hres := ih (used ++ [next_key blocks i used]) h1' h2' h3'
    rw [key_seq_cons]
    have heq : used ++ next_key blocks i used :: key_seq blocks rest (used ++ [next_key blocks i used])
        = (used ++ [next_key blocks i used]) ++ key_seq blocks rest (used ++ [next_key blocks i used]) := by
      simp
    rw [heq]
    exact hres

theorem key_seq_repeat (blocks : Nat → QuantumResult) :
    ∀ (l : List Nat) (used : List String) (j : Nat) (hj : j < (key_seq blocks l used).length),
      (key_seq blocks l used).get ⟨j, hj⟩ ∈ used ++ (key_seq blocks l used).take j →
      ∀ a ∈ approach_keys, a ∈ used ++ (key_seq blocks l used).take j := by
  intro l
  induction l with
  | nil =>
    intro used j hj
    simp [key_seq] at hj
  | cons i rest ih =>
    intro used j hj hmem a ha
    cases j with
    | zero =>
      have hmem0 : next_key blocks i used ∈ used ++ ([] : List String) := hmem
      rw [List.append_nil] at hmem0
      show a ∈ used ++ ([] : List String)
      rw [List.append_nil]
      by_contra hna
      have : next_key blocks i used ∉ used := select_approach_not_mem _ _ ⟨a, ha, hna⟩
      exact this hmem0
    | succ j' =>
      have hj' : j' < (key_seq blocks rest (used ++ [next_key blocks i used])).length :=
        Nat.lt_of_succ_lt_succ hj
      have hmem1 : (key_seq blocks rest (used ++ [next_key blocks i used])).get ⟨j', hj'⟩
          ∈ used ++ (next_key blocks i used
            :: (key_seq blocks rest (used ++ [next_key blocks i used])).take j') := hmem
      have hmem2 : (key_seq blocks rest (used ++ [next_key blocks i used])).get ⟨j', hj'⟩
          ∈ (used ++ [next_key blocks i used])
            ++ (key_seq blocks rest (used ++ [next_key blocks i used])).take j' := by
        simpa [List.append_assoc] using hmem1
      have hres := ih (used ++ [next_key blocks i used]) j' hj' hmem2 a ha
      show a ∈ used ++ (next_key blocks i used
        :: (key_seq blocks rest (used ++ [next_key blocks i used])).take j')
      simpa [List.append_assoc] using hres

theorem generate_loop_keys (base : String) (blocks : Nat → QuantumResult) :
    ∀ (l : List Nat) (used : List String),
      ((generate_loop base blocks l used).1).map (fun r => r.approach_key)
        = key_seq blocks l used := by
  intro l
  induction l with
  | nil => intro used; rfl
  | cons i rest ih =>
    intro used
    simp only [generate_loop, List.map_cons, key_seq_cons]
    exact congrArg _ (ih _)

theorem gen_keys_eq (base : String) (n : Int) (blocks : Nat → QuantumResult) :
    gen_keys base n blocks = key_seq blocks (List.range n.toNat) [] := by
  unfold gen_keys generate_variations generate_variations_run
  exact generate_loop_keys base blocks _ _

/-- C4: within one `generate_variations` call no approach is chosen again
while an unused approach remains — whenever the key at position `j` already
occurs among the first `j` keys, all five approaches occur there; requesting
5 variations uses each approach exactly once; and two consecutive equal keys
force all five approaches into the preceding prefix. -/
theorem approach_no_premature_repeat (base : String) (blocks : Nat → QuantumResult)
    (hblocks : ∀ i, ((blocks i).random_bytes).length = 100) :
    (∀ (n : Int) (j : Nat) (x : String), (gen_keys base n blocks)[j]? = some x →
        x ∈ (gen_keys base n blocks).take j →
        ∀ a ∈ approach_keys, a ∈ (gen_keys base n blocks).take j) ∧
    ((gen_keys base 5 blocks).Nodup ∧
      ∀ a ∈ approach_keys, (gen_keys base 5 blocks).count a = 1) ∧
    (∀ (n : Int) (j : Nat) (x : String), (gen_keys base n blocks)[j]? = some x →
        (gen_keys base n blocks)[j + 1]? = some x →
        ∀ a ∈ approach_keys, a ∈ (gen_keys base n blocks).take (j + 1)) := by
  have hpart1 : ∀ (n : Int) (j : Nat) (x : String), (gen_keys base n blocks)[j]? = some x →
      x ∈ (gen_keys base n blocks).take j →
      ∀ a ∈ approach_keys, a ∈ (gen_keys base n blocks).take j := by
    intro n j x hx hxin a ha
    rw [gen_keys_eq base n blocks] at hx hxin ⊢
    obtain ⟨hj, he⟩ := List.getElem?_eq_some_iff.mp hx
    have hget : (key_seq blocks (List.range n.toNat) []).get ⟨j, hj⟩ = x := by
      simpa using he
    have hres := key_seq_repeat blocks (List.range n.toNat) [] j hj
      (by rw [hget]; simpa using hxin) a ha
    simpa using hres
  have hnd : (gen_keys base 5 blocks).Nodup := by
    rw [gen_keys_eq base 5 blocks]
    have h := key_seq_nodup blocks (List.range (5:Int).toNat) [] List.nodup_nil
      (by simp) (by decide)
    simpa using h
  have hlen5 : (gen_keys base 5 blocks).length = 5 := by
    rw [gen_keys_eq base 5 blocks, key_seq_length]
    decide
  have hsub : ∀ x ∈ gen_keys base 5 blocks, x ∈ approach_keys := by
    rw [gen_keys_eq base 5 blocks]
    intro x hx
    exact key_seq_mem blocks _ _ x hx
  have hall : ∀ a ∈ approach_keys, a ∈ gen_keys base 5 blocks := by
    intro a ha
    have h1 : (gen_keys base 5 blocks).toFinset ⊆ approach_keys.toFinset := by
      intro y hy
      rw [List.mem_toFinset] at hy ⊢
      exact hsub y hy
    have hc1 : (gen_keys base 5 blocks).toFinset.card = 5 := by
      rw [List.toFinset_card_of_nodup hnd, hlen5]
    have hc2 : approach_keys.toFinset.card = 5 := by decide
    have hEq : (gen_keys base 5 blocks).toFinset = approach_keys.toFinset :=
      Finset.eq_of_subset_of_card_le h1 (by simp [hc1, hc2])
    rw [← List.mem_toFinset, hEq, List.mem_toFinset]
    exact ha
  refine ⟨hpart1, ⟨hnd, fun a ha => List.count_eq_one_of_mem hnd (hall a ha)⟩, ?_⟩
  intro n j x hx hx1 a ha
  apply hpart1 n (j + 1) x hx1 ?_ a ha
  apply List.getElem?_mem (n := j)
  rw [List.getElem?_take_of_lt (Nat.lt_succ_self j)]
  exact hx

/-- Witness for C4 at a concrete input. -/
theorem approach_no_premature_repeat_witness :
    (gen_keys "p" 5 demo_blocks).count "precision_mix" = 1 :=
  (approach_no_premature_repeat "p" demo_blocks (fun _ => rfl)).2.1.2 "precision_mix" (by decide)
